import Mathlib

/-!
Verification development for the OBS-recording-mover repository
(src/OBS-recording-mover.py).  The Python source is shallowly embedded:
strings are Lean `String`s manipulated through executable helpers over
`List Char` (mirroring the CPython `str`/`posixpath` semantics actually
exercised by the program), floating-point times are modelled as `ℚ`,
mutable module state is threaded explicitly, and the filesystem/thread
effects are reported as explicit effect values.
-/

namespace RecordingMover

/-- Whitespace predicate matching CPython `str.strip` / `str.split` for the
ASCII range used by the program. -/
def pyIsSpace (c : Char) : Bool :=
  c = ' ' || c = '\t' || c = '\n' || c = '\r' || c = Char.ofNat 11 || c = Char.ofNat 12

/-- Python `str.strip()` with no argument: drop leading and trailing whitespace. -/
def pyStrip (s : String) : String :=
  String.mk (((s.toList.dropWhile pyIsSpace).reverse.dropWhile pyIsSpace).reverse)

/-- Python `str.lower()` (ASCII). -/
def pyLower (s : String) : String :=
  String.mk (s.toList.map Char.toLower)

/-- Splitter for Python `str.split(sep)` with a non-empty separator: scans the
character list, emitting the accumulated word whenever `sep` occurs.  The
`Nat` argument is structural fuel (initially the input length), which makes
the definition kernel-reducible. -/
def splitOnAux (sep : List Char) : Nat → List Char → List Char → List (List Char)
  | _, [], cur => [cur.reverse]
  | 0, l, cur => [cur.reverse ++ l]
  | fuel + 1, c :: rest, cur =>
    if sep ≠ [] && sep.isPrefixOf (c :: rest) then
      cur.reverse :: splitOnAux sep fuel (List.drop (sep.length - 1) rest) []
    else
      splitOnAux sep fuel rest (c :: cur)

/-- Python `s.split(sep)` for a non-empty separator string. -/
def pySplit (s sep : String) : List String :=
  (splitOnAux sep.toList s.toList.length s.toList []).map String.mk

/-- Python `s.replace(pat, rep)` for a non-empty pattern. -/
def pyReplace (s pat rep : String) : String :=
  String.intercalate rep (pySplit s pat)

/-- Python `str.split()` with no argument: split on whitespace runs, dropping
empty pieces. -/
def splitWsAux : List Char → List Char → List String
  | [], cur => if cur.isEmpty then [] else [String.mk cur.reverse]
  | c :: rest, cur =>
    if pyIsSpace c then
      if cur.isEmpty then splitWsAux rest []
      else String.mk cur.reverse :: splitWsAux rest []
    else
      splitWsAux rest (c :: cur)

/-- Python `s.split()` (no separator argument). -/
def pySplitWs (s : String) : List String :=
  splitWsAux s.toList []

/-- Substring containment, Python's `needle in haystack` on `str`. -/
def listContainsSub (needle : List Char) : List Char → Bool
  | [] => needle.isEmpty
  | c :: rest => needle.isPrefixOf (c :: rest) || listContainsSub needle rest

/-- Python `needle in haystack` for strings. -/
def strContains (haystack needle : String) : Bool :=
  listContainsSub needle.toList haystack.toList

/-- Python `s.rstrip(chars)`: drop trailing characters belonging to `chars`. -/
def pyRstrip (s : String) (chars : List Char) : String :=
  String.mk ((s.toList.reverse.dropWhile (fun c => chars.contains c)).reverse)

/-- String membership of a single character, Python `c in s` for a 1-char `c`. -/
def strContainsChar (s : String) (c : Char) : Bool :=
  s.toList.contains c

/-- String prefix test on the underlying character lists, Python
`s.startswith(p)` (kernel-reducible, unlike core `String.isPrefixOf`). -/
def strStartsWith (s p : String) : Bool :=
  p.toList.isPrefixOf s.toList

/-- POSIX `os.path.basename`: the part after the last slash. -/
def basename (p : String) : String :=
  String.mk ((p.toList.reverse.takeWhile (fun c => c ≠ '/')).reverse)

/-- Fixed keyword table of `extract_relevant_title`
(src/OBS-recording-mover.py lines 159-167). -/
def irrelevant_keywords : List String :=
  ["vulkan", "direct3d", "opengl", "metal", "dx12", "dx11", "dx9"]

/-- Keyword-popping loop of `extract_relevant_title` (lines 170-173).  The
string `last` is computed once from the original last segment and is not
recomputed as the loop pops; each matching keyword performs one
`parts.pop()`.  `none` models the `IndexError` CPython raises when `pop` is
called on an empty list. -/
def kwLoop (last : String) (kws : List String) (parts : Option (List String)) :
    Option (List String) :=
  kws.foldl
    (fun acc kw =>
      match acc with
      | none => none
      | some ps =>
        if strContains last kw && decide (last.length < kw.length + 6) then
          match ps with
          | [] => none
          | _ :: _ => some ps.dropLast
        else some ps)
    parts

/-- Embedding of `extract_relevant_title` (src/OBS-recording-mover.py lines
149-189).  Returns `none` when the Python function raises (pop from an empty
list in the keyword loop). -/
def extract_relevant_title (title : String) : Option String :=
  let t := pyStrip (pyReplace title "—" "-")
  let parts := ((pySplit t "-").map pyStrip).filter (fun p => p ≠ "")
  let parts2? : Option (List String) :=
    match parts.getLast? with
    | none => some parts
    | some lastSeg =>
      kwLoop (pyReplace (pyLower lastSeg) " " "") irrelevant_keywords (some parts)
  match parts2? with
  | none => none
  | some parts2 =>
    let chosen :=
      match parts2.getLast? with
      | some c =>
        let c := pyStrip c
        if strContainsChar c '/' || strContainsChar c '\\' then
          let b := basename (pyRstrip c ['/', '\\'])
          if b = "" then c else b
        else c
      | none => t
    let cleaned :=
      String.mk (chosen.toList.filter (fun ch => ch.isAlphanum || ch ∈ [' ', '_', '-']))
    some (String.intercalate "-" (pySplitWs (pyStrip cleaned)))

/-- Embedding of `sanitize` (src/OBS-recording-mover.py lines 259-267).  The
global `SHORT_HANDS` dict is passed explicitly as an association list;
`SHORT_HANDS.get(cleaned)` truthiness means a key mapped to the empty string
does not replace the title. -/
def sanitize (shorthand : List (String × String)) (title : String) : Option String :=
  (extract_relevant_title title).map (fun cleaned =>
    match shorthand.lookup cleaned with
    | some v => if v = "" then cleaned else v
    | none => cleaned)

/-- POSIX `os.path.normpath`: collapse separators and `.`, resolve `..`
textually, preserve an initial `//` exactly (CPython `posixpath.normpath`). -/
def normpath (path : String) : String :=
  if path = "" then "."
  else
    let initialSlashes : Nat :=
      if strStartsWith path "/" then
        if strStartsWith path "//" && !strStartsWith path "///" then 2 else 1
      else 0
    let comps := pySplit path "/"
    let newComps := comps.foldl
      (fun acc comp =>
        if comp = "" || comp = "." then acc
        else if comp ≠ ".." || (initialSlashes = 0 && acc.isEmpty)
            || acc.getLast? = some ".." then
          acc ++ [comp]
        else if !acc.isEmpty then acc.dropLast
        else acc)
      []
    let p := String.mk (List.replicate initialSlashes '/') ++
      String.intercalate "/" newComps
    if p = "" then "." else p

/-- POSIX `os.path.isabs`. -/
def isabs (p : String) : Bool :=
  strStartsWith p "/"

/-- Two-argument POSIX `os.path.join`. -/
def pyJoin (a b : String) : String :=
  if isabs b then b
  else if a = "" || a.toList.getLastD ' ' = '/' then a ++ b
  else a ++ "/" ++ b

/-- POSIX `os.path.abspath`; the process working directory is an explicit
parameter since the Python function reads it from the OS. -/
def abspath (cwd path : String) : String :=
  if isabs path then normpath path else normpath (pyJoin cwd path)

/-- Length of the common prefix of two component lists (CPython
`os.path.commonprefix` on lists). -/
def commonLen : List String → List String → Nat
  | a :: as, b :: bs => if a = b then commonLen as bs + 1 else 0
  | _, _ => 0

/-- POSIX `os.path.relpath path start` (CPython `posixpath.relpath`), for the
non-empty paths the program feeds it. -/
def relpath (cwd path start : String) : String :=
  let startList := (pySplit (abspath cwd start) "/").filter (fun x => x ≠ "")
  let pathList := (pySplit (abspath cwd path) "/").filter (fun x => x ≠ "")
  let i := commonLen startList pathList
  let relList := List.replicate (startList.length - i) ".." ++ pathList.drop i
  if relList.isEmpty then "." else String.intercalate "/" relList

/-- Loop body of `path_translate` (src/OBS-recording-mover.py lines 272-279):
iterate the translation table in order; on the first source prefix that is a
string prefix of the normalized path, return the destination joined with the
relative part. -/
def translateGo (cwd normPath origPath : String) : List (String × String) → String
  | [] => origPath
  | (srcp, dstp) :: rest =>
    if strStartsWith normPath srcp then pyJoin dstp (relpath cwd normPath srcp)
    else translateGo cwd normPath origPath rest

/-- Embedding of `path_translate` (src/OBS-recording-mover.py lines 270-281).
The global `PATH_TRANSLATE` dict is the explicit `table` and the process
working directory (read by `os.path.relpath` for relative paths) is `cwd`. -/
def path_translate (cwd : String) (table : List (String × String)) (path : String) :
    String :=
  translateGo cwd (normpath path) path table

/-- Specification-side rendering of §4.2: normalize the path, find the first
table entry whose source prefix matches, rewrite through it, else return the
path unchanged. -/
def path_translate_spec (cwd : String) (table : List (String × String)) (path : String) :
    String :=
  match table.find? (fun e => strStartsWith (normpath path) e.1) with
  | none => path
  | some e => pyJoin e.2 (relpath cwd (normpath path) e.1)

/-- Insertion-ordered accumulator update: `window_focus_times[t] += d` on a
`defaultdict(float)` adds in place when the key exists and appends a fresh
entry otherwise. -/
def accumAdd : List (String × ℚ) → String → ℚ → List (String × ℚ)
  | [], t, d => [(t, d)]
  | (k, v) :: rest, t, d =>
    if k = t then (k, v + d) :: rest else (k, v) :: accumAdd rest t d

/-- Sum of all accumulated durations, Python `sum(window_focus_times.values())`. -/
def accumSum (l : List (String × ℚ)) : ℚ :=
  (l.map Prod.snd).sum

/-- Per-iteration state of `window_tracker`'s sampling loop
(src/OBS-recording-mover.py lines 201-238): the previously sampled title,
the previous sample's timestamp, and the accumulator. -/
structure TrackState where
  lastTitle : Option String
  lastTime : ℚ
  accum : List (String × ℚ)
deriving Repr, DecidableEq

/-- One iteration of the `window_tracker` loop at sample time `s.1` observing
title `s.2` (lines 231-237): `if last_title:` is a Python truthiness test,
so the elapsed interval is credited only when the previous title is set and
non-empty (an empty string — reachable through `pywinctl`'s `win.title` —
skips the credit); then the new title and timestamp are remembered. -/
def trackerStep (st : TrackState) (s : ℚ × String) : TrackState :=
  let acc :=
    match st.lastTitle with
    | none => st.accum
    | some t => if t = "" then st.accum else accumAdd st.accum t (s.1 - st.lastTime)
  ⟨some s.2, s.1, acc⟩

/-- Final flush of `window_tracker` after the loop observes the stop flag
(lines 252-254): credit the tail interval to the last sampled title, with
the same `if last_title:` truthiness test as the loop body — an empty last
title is not credited. -/
def trackerFinal (st : TrackState) (endTime : ℚ) : List (String × ℚ) :=
  match st.lastTitle with
  | none => st.accum
  | some t => if t = "" then st.accum else accumAdd st.accum t (endTime - st.lastTime)

/-- Whole run of `window_tracker` over one session: the loop starts with no
previous title and `last_time = t0` (line 206), processes one
`(sampleTime, title)` pair per iteration, and flushes at `endTime` when
cancellation is observed. -/
def window_tracker_run (t0 : ℚ) (samples : List (ℚ × String)) (endTime : ℚ) :
    List (String × ℚ) :=
  trackerFinal (samples.foldl trackerStep ⟨none, t0, []⟩) endTime

/-- Result of one `subprocess.run(TRACK_COMMAND, ...)` poll
(src/OBS-recording-mover.py lines 210-212). -/
structure CmdResult where
  returncode : Int
  stdout : String
  stderr : String
deriving Repr, DecidableEq

/-- Title sampled from a command poll (lines 213-216): stdout on success
(empty stdout falls back to "Desktop"), "Desktop" on nonzero exit. -/
def cmdTitle (r : CmdResult) : String :=
  if r.returncode = 0 then (if r.stdout = "" then "Desktop" else r.stdout)
  else "Desktop"

/-- Failure message built on nonzero exit (line 217). -/
def cmdMsg (r : CmdResult) : String :=
  "Window title command, results in errorcode " ++ toString r.returncode ++
    " with message: " ++ r.stdout ++ " " ++ r.stderr

/-- One poll of the `window_tracker` loop (src/OBS-recording-mover.py lines
208-229): with a configured `TRACK_COMMAND` the poll is a `subprocess.run`
result (lines 209-220); otherwise it is an OS window query through
`pywinctl` (lines 221-229), which either returns a title or raises an
exception whose text is `e`. -/
inductive PollOutcome where
  | cmd (r : CmdResult)
  | osOk (title : String)
  | osErr (e : String)
deriving Repr, DecidableEq

/-- Failure message built when the OS title query raises (line 226). -/
def osMsg (e : String) : String :=
  "Unable to get window title: " ++ e

/-- Title sampled by one poll: command stdout on zero exit (empty stdout
falls back to "Desktop"), "Desktop" on nonzero exit, the OS title on a
successful query, and "Desktop" when the OS query raises. -/
def pollTitle : PollOutcome → String
  | .cmd r => cmdTitle r
  | .osOk t => t
  | .osErr _ => "Desktop"

/-- Failure message produced by one poll, if any: nonzero command exit or a
raised OS query. -/
def pollFailMsg : PollOutcome → Option String
  | .cmd r => if r.returncode = 0 then none else some (cmdMsg r)
  | .osOk _ => none
  | .osErr e => some (osMsg e)

/-- Title and logging behavior of one `window_tracker` poll (lines 209-229):
a successful poll leaves `last_except` and the log untouched; a failing poll
(either branch) prints its message when it differs from `last_except` and
overwrites `last_except`. -/
def pollStep (st : Option String × List String × List String) (p : PollOutcome) :
    Option String × List String × List String :=
  match pollFailMsg p with
  | none => (st.1, st.2.1 ++ [pollTitle p], st.2.2)
  | some m =>
    (some m, st.2.1 ++ [pollTitle p],
      if some m = st.1 then st.2.2 else st.2.2 ++ [m])

/-- Sampled titles and logged failure messages of a tracker over its
lifetime, in loop order. -/
def window_titles_logs (polls : List PollOutcome) : List String × List String :=
  (polls.foldl pollStep (none, [], [])).2

/-- Failure messages of the failing polls, in order. -/
def failMsgs (polls : List PollOutcome) : List String :=
  polls.filterMap pollFailMsg

/-- Specification-side consecutive deduplication: keep a message only when it
differs from the most recent failure message seen. -/
def dedupConsec : Option String → List String → List String
  | _, [] => []
  | last, m :: ms =>
    if some m = last then dedupConsec last ms else m :: dedupConsec (some m) ms

/-- Threading of `last_except` through the polls. -/
def lastExceptAfter (le : Option String) : List PollOutcome → Option String
  | [] => le
  | p :: ps =>
    lastExceptAfter
      (match pollFailMsg p with
        | none => le
        | some m => some m) ps

/-- Event payload consumed by `on_record_state_changed`
(`data.output_active`, `data.output_state`, `data.output_path`); a `none`
path models a missing/null path field. -/
structure Event where
  output_active : Bool
  output_state : String
  output_path : Option String
deriving Repr, DecidableEq

/-- Module-level mutable state of the script (src/OBS-recording-mover.py
lines 133-141); `focus_thread` records whether a tracker thread object
exists. -/
structure MoverState where
  recording_active : Bool
  stop_focus_thread : Bool
  focus_thread : Bool
  last_output_active : Option Bool
  window_focus_times : List (String × ℚ)
  latest_output_paths : List String
  last_output_paths : List String
deriving Repr, DecidableEq

/-- Observable effects of one `on_record_state_changed` call: whether the
handler joined the tracker thread, and the `move_recording(path, title)`
calls issued, in order. -/
structure Effects where
  joined : Bool
  moves : List (String × String)
deriving Repr, DecidableEq

/-- Embedding of `add_files` (src/OBS-recording-mover.py lines 307-316):
append `path` to the current generation unless it is null/empty or already
present in either generation. -/
def add_files (latest last : List String) (path : Option String) : List String :=
  match path with
  | none => latest
  | some p =>
    if p ≠ "" && !latest.contains p && !last.contains p then latest ++ [p]
    else latest

/-- CPython `max(iterable, key=...)` over a nonempty tail: keeps the current
best and replaces it only on a strictly greater key, so the first maximal
element wins. -/
def pyMaxAux (best : String × ℚ) : List (String × ℚ) → String × ℚ
  | [] => best
  | x :: xs => pyMaxAux (if best.2 < x.2 then x else best) xs

/-- Dominant-window selection of `on_record_state_changed`
(src/OBS-recording-mover.py lines 361-366): `max` over the insertion-ordered
accumulator items by value when nonempty, the literal "Unknown" otherwise. -/
def dominant_window : List (String × ℚ) → String
  | [] => "Unknown"
  | x :: xs => (pyMaxAux x xs).1

/-- Embedding of `on_record_state_changed` (src/OBS-recording-mover.py lines
329-374).  `add_files(data.output_path)` runs before the pause/duplicate
guard; the stop branch joins the tracker (when one exists), selects the
dominant window, issues one move per queued path, and swaps the path
generations only when the current generation is nonempty. -/
def on_record_state_changed (st : MoverState) (d : Event) : MoverState × Effects :=
  let st1 := { st with
    latest_output_paths :=
      add_files st.latest_output_paths st.last_output_paths d.output_path }
  if some d.output_active = st1.last_output_active
      ∨ d.output_state = "OBS_WEBSOCKET_OUTPUT_RESUMED"
      ∨ d.output_state = "OBS_WEBSOCKET_OUTPUT_PAUSED" then
    (st1, ⟨false, []⟩)
  else
    let st2 := { st1 with last_output_active := some d.output_active }
    if d.output_active then
      ({ st2 with
          recording_active := true
          window_focus_times := []
          stop_focus_thread := false
          focus_thread := true },
        ⟨false, []⟩)
    else
      let st3 := { st2 with recording_active := false, stop_focus_thread := true }
      let joined := st3.focus_thread
      if st3.latest_output_paths ≠ [] then
        let dom := dominant_window st3.window_focus_times
        ({ st3 with
            last_output_paths := st3.latest_output_paths
            latest_output_paths := [] },
          ⟨joined, st3.latest_output_paths.map (fun p => (p, dom))⟩)
      else
        (st3, ⟨joined, []⟩)

/-! Helper lemmas. -/

lemma accumSum_accumAdd (l : List (String × ℚ)) (t : String) (d : ℚ) :
    accumSum (accumAdd l t d) = accumSum l + d := by
  induction l with
  | nil => simp [accumAdd, accumSum]
  | cons p rest ih =>
    obtain ⟨k, v⟩ := p
    by_cases h : k = t
    · simp [accumAdd, h, accumSum]
      ring
    · simp [accumAdd, h, accumSum] at ih ⊢
      linarith

lemma tracker_run_sum (rest : List (ℚ × String)) :
    ∀ (t : String), t ≠ "" → (∀ s ∈ rest, s.2 ≠ "") →
      ∀ (lt : ℚ) (acc : List (String × ℚ)) (e : ℚ),
        accumSum (trackerFinal (rest.foldl trackerStep ⟨some t, lt, acc⟩) e) =
          accumSum acc + (e - lt) := by
  induction rest with
  | nil =>
    intro t ht _ lt acc e
    simp [trackerFinal, ht, accumSum_accumAdd]
  | cons s rest ih =>
    intro t ht hall lt acc e
    have hstep : trackerStep ⟨some t, lt, acc⟩ s =
        ⟨some s.2, s.1, accumAdd acc t (s.1 - lt)⟩ := by
      simp [trackerStep, ht]
    rw [List.foldl_cons, hstep,
      ih s.2 (hall s (List.mem_cons_self s rest))
        (fun q hq => hall q (List.mem_cons_of_mem s hq)),
      accumSum_accumAdd]
    ring

lemma pyMaxAux_decomp (l : List (String × ℚ)) :
    ∀ best : String × ℚ,
      (pyMaxAux best l = best ∧ ∀ q ∈ l, q.2 ≤ best.2) ∨
      (∃ l1 l2, l = l1 ++ pyMaxAux best l :: l2 ∧ best.2 < (pyMaxAux best l).2 ∧
        (∀ q ∈ l1, q.2 < (pyMaxAux best l).2) ∧
        (∀ q ∈ l2, q.2 ≤ (pyMaxAux best l).2)) := by
  induction l with
  | nil =>
    intro best
    left
    exact ⟨rfl, by simp⟩
  | cons x xs ih =>
    intro best
    by_cases h : best.2 < x.2
    · have hred : pyMaxAux best (x :: xs) = pyMaxAux x xs := by
        simp [pyMaxAux, h]
      rcases ih x with ⟨heq, hle⟩ | ⟨l1, l2, hdec, hlt, hl1, hl2⟩
      · right
        refine ⟨[], xs, ?_, ?_, by simp, ?_⟩
        · rw [hred, heq]
          simp
        · rw [hred, heq]
          exact h
        · intro q hq
          rw [hred, heq]
          exact hle q hq
      · right
        refine ⟨x :: l1, l2, ?_, ?_, ?_, ?_⟩
        · rw [hred]
          simpa using hdec
        · rw [hred]
          exact lt_trans h hlt
        · intro q hq
          rw [hred]
          rcases List.mem_cons.mp hq with rfl | hq'
          · exact hlt
          · exact hl1 q hq'
        · intro q hq
          rw [hred]
          exact hl2 q hq
    · have hred : pyMaxAux best (x :: xs) = pyMaxAux best xs := by
        simp [pyMaxAux, h]
      rcases ih best with ⟨heq, hle⟩ | ⟨l1, l2, hdec, hlt, hl1, hl2⟩
      · left
        constructor
        · rw [hred, heq]
        · intro q hq
          rcases List.mem_cons.mp hq with rfl | hq'
          · exact le_of_not_lt h
          · exact hle q hq'
      · right
        refine ⟨x :: l1, l2, ?_, ?_, ?_, ?_⟩
        · rw [hred]
          simpa using hdec
        · rw [hred]
          exact hlt
        · intro q hq
          rw [hred]
          rcases List.mem_cons.mp hq with rfl | hq'
          · exact lt_of_le_of_lt (le_of_not_lt h) hlt
          · exact hl1 q hq'
        · intro q hq
          rw [hred]
          exact hl2 q hq

lemma stop_branch_nonempty (st : MoverState) (d : Event)
    (hdup : some d.output_active ≠ st.last_output_active)
    (hres : d.output_state ≠ "OBS_WEBSOCKET_OUTPUT_RESUMED")
    (hpau : d.output_state ≠ "OBS_WEBSOCKET_OUTPUT_PAUSED")
    (hact : d.output_active = false)
    (hne : add_files st.latest_output_paths st.last_output_paths d.output_path ≠ []) :
    on_record_state_changed st d =
      ({ st with
          recording_active := false
          stop_focus_thread := true
          last_output_active := some false
          latest_output_paths := []
          last_output_paths :=
            add_files st.latest_output_paths st.last_output_paths d.output_path },
        ⟨st.focus_thread,
          (add_files st.latest_output_paths st.last_output_paths d.output_path).map
            (fun p => (p, dominant_window st.window_focus_times))⟩) := by
  rw [hact] at hdup
  simp [on_record_state_changed, hdup, hres, hpau, hact, hne]

lemma stop_branch_empty (st : MoverState) (d : Event)
    (hdup : some d.output_active ≠ st.last_output_active)
    (hres : d.output_state ≠ "OBS_WEBSOCKET_OUTPUT_RESUMED")
    (hpau : d.output_state ≠ "OBS_WEBSOCKET_OUTPUT_PAUSED")
    (hact : d.output_active = false)
    (hemp : add_files st.latest_output_paths st.last_output_paths d.output_path = []) :
    on_record_state_changed st d =
      ({ st with
          recording_active := false
          stop_focus_thread := true
          last_output_active := some false
          latest_output_paths := [] },
        ⟨st.focus_thread, []⟩) := by
  rw [hact] at hdup
  simp [on_record_state_changed, hdup, hres, hpau, hact, hemp]

lemma pollFold_spec (polls : List PollOutcome) :
    ∀ (le : Option String) (ta la : List String),
      polls.foldl pollStep (le, ta, la) =
        (lastExceptAfter le polls, ta ++ polls.map pollTitle,
          la ++ dedupConsec le (failMsgs polls)) := by
  induction polls with
  | nil =>
    intro le ta la
    simp [lastExceptAfter, failMsgs, dedupConsec]
  | cons p ps ih =>
    intro le ta la
    cases hm : pollFailMsg p with
    | none =>
      have hstep : pollStep (le, ta, la) p = (le, ta ++ [pollTitle p], la) := by
        simp [pollStep, hm]
      rw [List.foldl_cons, hstep, ih]
      simp [lastExceptAfter, hm, failMsgs, List.filterMap_cons]
    | some m =>
      by_cases hle : some m = le
      · subst hle
        have hstep : pollStep (some m, ta, la) p =
            (some m, ta ++ [pollTitle p], la) := by
          simp [pollStep, hm]
        rw [List.foldl_cons, hstep, ih]
        simp [lastExceptAfter, hm, failMsgs, List.filterMap_cons, dedupConsec]
      · have hstep : pollStep (le, ta, la) p =
            (some m, ta ++ [pollTitle p], la ++ [m]) := by
          simp [pollStep, hm, hle]
        rw [List.foldl_cons, hstep, ih]
        simp [lastExceptAfter, hm, failMsgs, List.filterMap_cons, dedupConsec, hle]

lemma add_files_nil (latest last : List String) (path : Option String)
    (h : add_files latest last path = []) : latest = [] := by
  cases path with
  | none => exact h
  | some p =>
    simp only [add_files] at h
    split at h
    · simp at h
    · exact h

lemma add_files_mem (latest last : List String) (path : Option String)
    (p : String) (hp : p ∈ latest) : p ∈ add_files latest last path := by
  cases path with
  | none => exact hp
  | some q =>
    simp only [add_files]
    split
    · exact List.mem_append_left _ hp
    · exact hp

/-! Claim theorems. -/

/-- C1 counterexample: a session of duration 4 polled every second whose
titles are "w", "", "", "x" accumulates only 2 — the two intervals following
an empty-string sample are dropped by the `if last_title:` truthiness test —
which is short of the session duration by more than one poll interval
(2 < 4 - 1), refuting the unconditional sum-within-one-interval claim. -/
theorem empty_title_undercount_cex :
    accumSum (window_tracker_run 0
        [((0:ℚ), "w"), (1, ""), (2, ""), (3, "x")] 4) = 2 ∧
    ¬ ((4:ℚ) - 0 - 1 ≤ accumSum (window_tracker_run 0
        [((0:ℚ), "w"), (1, ""), (2, ""), (3, "x")] 4)) := by
  have hw : ("w" : String) ≠ "" := by decide
  have hx : ("x" : String) ≠ "" := by decide
  have hwx : ("w" : String) ≠ "x" := by decide
  have h : accumSum (window_tracker_run 0
      [((0:ℚ), "w"), (1, ""), (2, ""), (3, "x")] 4) = 2 := by
    norm_num [window_tracker_run, List.foldl, trackerStep, trackerFinal,
      accumAdd, accumSum, hw, hx, hwx]
  constructor
  · exact h
  · rw [h]
    norm_num

/-- C1 amended: each loop iteration whose previously sampled title is
non-empty credits the elapsed time since the previous sample to that
previous title (not the newly observed one); an iteration whose previous
title is the empty string credits nothing, and the final flush on
cancellation credits the tail interval to the last sampled title exactly
when it is non-empty; for a session whose sampled titles are all non-empty,
with the first sample at session start and the flush within one poll
interval of session stop, the accumulated total lies within one poll
interval of the session's wall-clock duration. -/
theorem tracker_session_sum_nonempty_titles
    (t0 tStart tStop endTime interval : ℚ) (s0 : String) (rest : List (ℚ × String))
    (acc : List (String × ℚ)) (lt : ℚ) (pt : String) (now : ℚ) (nt : String)
    (hpt : pt ≠ "") (hs0 : s0 ≠ "") (hrest : ∀ s ∈ rest, s.2 ≠ "")
    (h1 : tStop ≤ endTime) (h2 : endTime ≤ tStop + interval) :
    trackerStep ⟨some pt, lt, acc⟩ (now, nt) =
        ⟨some nt, now, accumAdd acc pt (now - lt)⟩ ∧
    trackerFinal ⟨some pt, lt, acc⟩ endTime = accumAdd acc pt (endTime - lt) ∧
    trackerStep ⟨some "", lt, acc⟩ (now, nt) = ⟨some nt, now, acc⟩ ∧
    trackerFinal ⟨some "", lt, acc⟩ endTime = acc ∧
    tStop - tStart ≤ accumSum (window_tracker_run t0 ((tStart, s0) :: rest) endTime) ∧
    accumSum (window_tracker_run t0 ((tStart, s0) :: rest) endTime) ≤
      tStop - tStart + interval := by
  have hsum : accumSum (window_tracker_run t0 ((tStart, s0) :: rest) endTime) =
      endTime - tStart := by
    have hfirst : trackerStep ⟨none, t0, []⟩ (tStart, s0) =
        ⟨some s0, tStart, []⟩ := rfl
    rw [window_tracker_run, List.foldl_cons, hfirst,
      tracker_run_sum rest s0 hs0 hrest]
    simp [accumSum]
  refine ⟨by simp [trackerStep, hpt], by simp [trackerFinal, hpt],
    by simp [trackerStep], by simp [trackerFinal], ?_, ?_⟩
  · rw [hsum]
    linarith
  · rw [hsum]
    linarith

/-- C1 witness: the amended statement instantiated at a concrete one-sample
run with a non-empty title. -/
theorem tracker_session_sum_nonempty_titles_witness :
    trackerStep ⟨some "p", (2:ℚ), []⟩ ((3:ℚ), "n") =
        ⟨some "n", 3, accumAdd [] "p" (3 - 2)⟩ ∧
    trackerFinal ⟨some "p", (2:ℚ), []⟩ 10 = accumAdd [] "p" (10 - 2) ∧
    trackerStep ⟨some "", (2:ℚ), []⟩ ((3:ℚ), "n") = ⟨some "n", 3, []⟩ ∧
    trackerFinal ⟨some "", (2:ℚ), []⟩ 10 = [] ∧
    (10:ℚ) - 0 ≤ accumSum (window_tracker_run 0 (((0:ℚ), "w") :: []) 10) ∧
    accumSum (window_tracker_run 0 (((0:ℚ), "w") :: []) 10) ≤ 10 - 0 + 1 :=
  tracker_session_sum_nonempty_titles 0 0 10 10 1 "w" [] [] 2 "p" 3 "n"
    (by decide) (by decide) (by simp) (by norm_num) (by norm_num)

/-- C3: at session stop the dominant title is the accumulator entry with the
maximum accumulated duration, ties broken by earliest insertion order (every
earlier entry is strictly smaller, every later entry is no larger); an empty
accumulator yields the literal "Unknown", and the {A: 5, B: 5} tie resolves
to A. -/
theorem dominant_window_first_max (wft : List (String × ℚ)) (hw : wft ≠ []) :
    (∃ l1 l2 v, wft = l1 ++ (dominant_window wft, v) :: l2 ∧
      (∀ q ∈ l1, q.2 < v) ∧ (∀ q ∈ l2, q.2 ≤ v)) ∧
    dominant_window ([] : List (String × ℚ)) = "Unknown" ∧
    dominant_window [("A", (5:ℚ)), ("B", 5)] = "A" := by
  refine ⟨?_, rfl, ?_⟩
  · cases wft with
    | nil => exact absurd rfl hw
    | cons x xs =>
      rcases pyMaxAux_decomp xs x with ⟨heq, hle⟩ | ⟨l1, l2, hdec, hlt, hl1, hl2⟩
      · refine ⟨[], xs, x.2, ?_, by simp, ?_⟩
        · simp [dominant_window, heq]
        · intro q hq
          exact hle q hq
      · refine ⟨x :: l1, l2, (pyMaxAux x xs).2, ?_, ?_, hl2⟩
        · have hpair : (dominant_window (x :: xs), (pyMaxAux x xs).2) = pyMaxAux x xs := by
            simp [dominant_window]
          rw [hpair, List.cons_append, ← hdec]
        · intro q hq
          rcases List.mem_cons.mp hq with rfl | hq'
          · exact hlt
          · exact hl1 q hq'
  · simp [dominant_window, pyMaxAux, lt_irrefl]

/-- C3 witness: the characterization instantiated at the tie example. -/
theorem dominant_window_first_max_witness :
    (∃ l1 l2 v, [("A", (5:ℚ)), ("B", 5)] =
        l1 ++ (dominant_window [("A", (5:ℚ)), ("B", 5)], v) :: l2 ∧
      (∀ q ∈ l1, q.2 < v) ∧ (∀ q ∈ l2, q.2 ≤ v)) ∧
    dominant_window ([] : List (String × ℚ)) = "Unknown" ∧
    dominant_window [("A", (5:ℚ)), ("B", 5)] = "A" :=
  dominant_window_first_max [("A", (5:ℚ)), ("B", 5)] (by simp)

/-- C5: `path_translate` normalizes the path and scans the table in order,
rewriting through the first entry whose source prefix matches and returning
the original path unchanged when none matches. -/
theorem path_translate_first_match (cwd : String) (table : List (String × String))
    (path : String) :
    path_translate cwd table path = path_translate_spec cwd table path := by
  unfold path_translate path_translate_spec
  induction table with
  | nil => simp [translateGo]
  | cons e rest ih =>
    obtain ⟨srcp, dstp⟩ := e
    by_cases h : strStartsWith (normpath path) srcp
    · simp [translateGo, h, List.find?_cons]
    · simp [translateGo, h, List.find?_cons, ih]

/-- C6 evaluation: the keyword loop of `extract_relevant_title` pops once per
matching keyword without a break, so a last segment matching two keywords
removes an additional, unrelated segment ("A" instead of the claimed "B"),
and a single-segment title matching two keywords makes the Python function
raise IndexError (modelled as `none`); a single-keyword segment behaves as
the claim states. -/
theorem keyword_drop_double_pop :
    extract_relevant_title "A - B - dx11dx9" = some "A" ∧
    extract_relevant_title "dx11dx9" = none ∧
    extract_relevant_title "Game - Vulkan" = some "Game" := by
  decide

/-- C7 counterexample: the title "A" is present as a key of the shorthand
table with mapped value "", yet the result keeps "A" rather than the mapped
value, because the code tests the lookup for truthiness. -/
theorem shorthand_empty_value_cex :
    sanitize [("A", "")] "A" ≠ some "" ∧ sanitize [("A", "")] "A" = some "A" := by
  decide

/-- C7 amended: the final step of `sanitize` looks the sanitized title up in
the shorthand table by exact string match and replaces it with the mapped
value only when that value is non-empty; an absent key, or a key mapped to
the empty string, leaves the title unchanged. -/
theorem shorthand_lookup_truthy (sh : List (String × String)) (t c : String)
    (h : extract_relevant_title t = some c) :
    (∀ v, sh.lookup c = some v → v ≠ "" → sanitize sh t = some v) ∧
    (sh.lookup c = none → sanitize sh t = some c) ∧
    (sh.lookup c = some "" → sanitize sh t = some c) := by
  refine ⟨?_, ?_, ?_⟩
  · intro v hv hne
    simp [sanitize, h, hv, hne]
  · intro hv
    simp [sanitize, h, hv]
  · intro hv
    simp [sanitize, h, hv]

/-- C7 witness: a present key with a non-empty value is replaced. -/
theorem shorthand_lookup_truthy_witness :
    sanitize [("A", "X")] "A" = some "X" :=
  (shorthand_lookup_truthy [("A", "X")] "A" "A" (by decide)).1 "X" (by decide)
    (by decide)

/-- C10: the prefix match of `path_translate` compares raw normalized path
strings, not components: "/a/b" is a string prefix of the normalized
"/a/bc/f" without being a component-wise ancestor of it, the entry matches,
and the translated result contains a ".." segment. -/
theorem translate_string_match_dotdot :
    strStartsWith (normpath "/a/bc/f") "/a/b" = true ∧
    strStartsWith (normpath "/a/bc/f") "/a/b/" = false ∧
    normpath "/a/bc/f" ≠ "/a/b" ∧
    path_translate "/" [("/a/b", "/d")] "/a/bc/f" = "/d/../bc/f" ∧
    ".." ∈ pySplit "/d/../bc/f" "/" := by
  decide

/-- C2 counterexample: a StateChanged event that is both a pause marker and a
duplicate level report still appends its output path to the current
generation of the queue, because `add_files` runs before the guard — the
input state's queue is empty, the output state's queue is not. -/
theorem ignored_event_mutates_queue_cex :
    (on_record_state_changed ⟨true, false, true, some true, [], [], []⟩
        ⟨true, "OBS_WEBSOCKET_OUTPUT_PAUSED", some "/x/y.mkv"⟩).1.latest_output_paths =
      ["/x/y.mkv"] ∧
    (⟨true, false, true, some true, [], [], []⟩ : MoverState).latest_output_paths =
      [] := by
  decide

/-- C2 amended: an event whose outputState is a pause/resume marker, or whose
outputActive equals the previously recorded level, causes no state
transition and leaves the session state, the tracker and the accumulator
unchanged — but the event's output path is still offered to the queue via
`add_files`, possibly growing the current generation; no tracker join and no
moves occur. -/
theorem ignored_event_only_add_files (st : MoverState) (d : Event)
    (h : some d.output_active = st.last_output_active ∨
      d.output_state = "OBS_WEBSOCKET_OUTPUT_RESUMED" ∨
      d.output_state = "OBS_WEBSOCKET_OUTPUT_PAUSED") :
    on_record_state_changed st d =
      ({ st with latest_output_paths :=
          add_files st.latest_output_paths st.last_output_paths d.output_path },
        ⟨false, []⟩) := by
  rcases h with h | h | h <;> simp [on_record_state_changed, h]

/-- C2 witness: the amended statement at a concrete paused event. -/
theorem ignored_event_only_add_files_witness :
    on_record_state_changed ⟨true, false, true, some true, [], [], []⟩
        ⟨true, "OBS_WEBSOCKET_OUTPUT_PAUSED", some "/x/y.mkv"⟩ =
      ({ (⟨true, false, true, some true, [], [], []⟩ : MoverState) with
          latest_output_paths := add_files [] [] (some "/x/y.mkv") },
        ⟨false, []⟩) :=
  ignored_event_only_add_files ⟨true, false, true, some true, [], [], []⟩
    ⟨true, "OBS_WEBSOCKET_OUTPUT_PAUSED", some "/x/y.mkv"⟩ (Or.inr (Or.inr rfl))

/-- C4 counterexample: a completed session (the Recording-to-Idle transition
does occur: the session deactivates and records the new level) whose current
generation is empty performs no rotation — the previous generation keeps its
old contents instead of being replaced by the empty current generation. -/
theorem empty_session_no_rotation_cex :
    (on_record_state_changed ⟨true, false, true, some true, [], [], ["/old"]⟩
        ⟨false, "OBS_WEBSOCKET_OUTPUT_STOPPED", none⟩).1.recording_active = false ∧
    (on_record_state_changed ⟨true, false, true, some true, [], [], ["/old"]⟩
        ⟨false, "OBS_WEBSOCKET_OUTPUT_STOPPED", none⟩).1.last_output_active =
      some false ∧
    (on_record_state_changed ⟨true, false, true, some true, [], [], ["/old"]⟩
        ⟨false, "OBS_WEBSOCKET_OUTPUT_STOPPED", none⟩).1.last_output_paths =
      ["/old"] ∧
    (["/old"] : List String) ≠ [] := by
  decide

/-- C4 amended: for every Recording-to-Idle transition, when the current
generation (after the stop event's own `add_files`) is non-empty, the
rotation happens exactly once, after the queued moves for the session are
issued: the current generation becomes the new previous generation and is
reset to empty; when the current generation is empty, no rotation occurs and
the previous generation is left unchanged. -/
theorem rotation_iff_nonempty_current (st : MoverState) (d : Event)
    (hdup : some d.output_active ≠ st.last_output_active)
    (hres : d.output_state ≠ "OBS_WEBSOCKET_OUTPUT_RESUMED")
    (hpau : d.output_state ≠ "OBS_WEBSOCKET_OUTPUT_PAUSED")
    (hact : d.output_active = false) :
    (add_files st.latest_output_paths st.last_output_paths d.output_path ≠ [] →
      (on_record_state_changed st d).1.last_output_paths =
          add_files st.latest_output_paths st.last_output_paths d.output_path ∧
      (on_record_state_changed st d).1.latest_output_paths = [] ∧
      (on_record_state_changed st d).2.moves =
        (add_files st.latest_output_paths st.last_output_paths d.output_path).map
          (fun p => (p, dominant_window st.window_focus_times))) ∧
    (add_files st.latest_output_paths st.last_output_paths d.output_path = [] →
      (on_record_state_changed st d).1.last_output_paths = st.last_output_paths ∧
      (on_record_state_changed st d).1.latest_output_paths = [] ∧
      (on_record_state_changed st d).2.moves = []) := by
  constructor
  · intro hne
    rw [stop_branch_nonempty st d hdup hres hpau hact hne]
    exact ⟨rfl, rfl, rfl⟩
  · intro hemp
    rw [stop_branch_empty st d hdup hres hpau hact hemp]
    exact ⟨rfl, rfl, rfl⟩

/-- C4 witness: the non-empty branch of the amended statement at a concrete
stop event with one queued path. -/
theorem rotation_iff_nonempty_current_witness :
    (on_record_state_changed ⟨true, false, true, some true, [], ["/a"], []⟩
        ⟨false, "OBS_WEBSOCKET_OUTPUT_STOPPED", none⟩).1.last_output_paths =
        add_files ["/a"] [] none ∧
    (on_record_state_changed ⟨true, false, true, some true, [], ["/a"], []⟩
        ⟨false, "OBS_WEBSOCKET_OUTPUT_STOPPED", none⟩).1.latest_output_paths = [] ∧
    (on_record_state_changed ⟨true, false, true, some true, [], ["/a"], []⟩
        ⟨false, "OBS_WEBSOCKET_OUTPUT_STOPPED", none⟩).2.moves =
      (add_files ["/a"] [] none).map (fun p => (p, dominant_window [])) :=
  (rotation_iff_nonempty_current ⟨true, false, true, some true, [], ["/a"], []⟩
      ⟨false, "OBS_WEBSOCKET_OUTPUT_STOPPED", none⟩
      (by decide) (by decide) (by decide) rfl).1 (by decide)

/-- C8 counterexample: two distinct failing command polls alternating as
m1, m2, m1 log the first message twice over the tracker's lifetime —
suppression only covers immediate repeats, not "once per distinct message
regardless of order". -/
theorem failure_log_relog_cex :
    cmdMsg ⟨1, "", ""⟩ ≠ cmdMsg ⟨2, "", ""⟩ ∧
    ((window_titles_logs [PollOutcome.cmd ⟨1, "", ""⟩, PollOutcome.cmd ⟨2, "", ""⟩,
        PollOutcome.cmd ⟨1, "", ""⟩]).2).count (cmdMsg ⟨1, "", ""⟩) = 2 := by
  decide

/-- C8 amended: every poll in which the configured title-source command
exits nonzero, or the OS title query raises, samples the sentinel "Desktop"
and the loop continues (one sampled title per poll); a failure message from
either branch is printed exactly when it differs from the most recent
failure message, so consecutive repeats are suppressed but a message
recurring after a different failure is logged again. -/
theorem failure_log_dedup_consecutive (polls : List PollOutcome) :
    (window_titles_logs polls).1 = polls.map pollTitle ∧
    (window_titles_logs polls).2 = dedupConsec none (failMsgs polls) ∧
    (∀ p : PollOutcome, pollFailMsg p ≠ none → pollTitle p = "Desktop") := by
  have h := pollFold_spec polls none [] []
  unfold window_titles_logs
  rw [h]
  refine ⟨by simp, by simp, ?_⟩
  intro p hp
  cases p with
  | cmd r =>
    by_cases hr : r.returncode = 0
    · exact absurd (by simp [pollFailMsg, hr]) hp
    · simp [pollTitle, cmdTitle, hr]
  | osOk t => exact absurd (by simp [pollFailMsg]) hp
  | osErr e => simp [pollTitle]

/-- C8 witness: the amended statement at a concrete raised OS title query. -/
theorem failure_log_dedup_consecutive_witness :
    pollTitle (PollOutcome.osErr "boom") = "Desktop" :=
  (failure_log_dedup_consecutive [PollOutcome.osErr "boom"]).2.2
    (PollOutcome.osErr "boom") (by decide)

/-- C9: in the initial state (no level recorded yet, no tracker, empty
accumulator), a StateChanged event with outputActive = false and a
non-pause/non-resume outputState — whether or not the event carries an
output path of its own — is not suppressed: it records false as the last
level, deactivates the session, joins no tracker, issues exactly one move
per entry of the current generation after the event's own `add_files` with
the dominant title "Unknown", and in particular attempts a move for every
path already queued via PathReported. -/
theorem initial_stop_event_runs_stop_path (st : MoverState) (d : Event)
    (h0 : st.last_output_active = none)
    (hwft : st.window_focus_times = [])
    (hth : st.focus_thread = false)
    (hact : d.output_active = false)
    (hres : d.output_state ≠ "OBS_WEBSOCKET_OUTPUT_RESUMED")
    (hpau : d.output_state ≠ "OBS_WEBSOCKET_OUTPUT_PAUSED") :
    (on_record_state_changed st d).1.last_output_active = some false ∧
    (on_record_state_changed st d).1.recording_active = false ∧
    (on_record_state_changed st d).2.joined = false ∧
    (on_record_state_changed st d).2.moves =
      (add_files st.latest_output_paths st.last_output_paths d.output_path).map
        (fun p => (p, "Unknown")) ∧
    (∀ p ∈ st.latest_output_paths,
      (p, "Unknown") ∈ (on_record_state_changed st d).2.moves) := by
  have hdup : some d.output_active ≠ st.last_output_active := by
    rw [h0]
    simp
  by_cases hemp : add_files st.latest_output_paths st.last_output_paths
      d.output_path = []
  · rw [stop_branch_empty st d hdup hres hpau hact hemp]
    refine ⟨rfl, rfl, hth, by simp [hemp], ?_⟩
    intro p hp
    have hlat : st.latest_output_paths = [] := add_files_nil _ _ _ hemp
    rw [hlat] at hp
    exact absurd hp (List.not_mem_nil p)
  · rw [stop_branch_nonempty st d hdup hres hpau hact hemp]
    refine ⟨rfl, rfl, hth, ?_, ?_⟩
    · rw [hwft]
      exact rfl
    · intro p hp
      rw [hwft]
      exact List.mem_map_of_mem _ (add_files_mem _ _ _ p hp)

/-- C9 witness: the initial-state stop event with one already-queued path
and an output path carried by the event itself. -/
theorem initial_stop_event_runs_stop_path_witness :
    (on_record_state_changed ⟨false, false, false, none, [], ["/q/r.mkv"], []⟩
        ⟨false, "OBS_WEBSOCKET_OUTPUT_STOPPED", some "/s/t.mkv"⟩).1.last_output_active =
      some false ∧
    (on_record_state_changed ⟨false, false, false, none, [], ["/q/r.mkv"], []⟩
        ⟨false, "OBS_WEBSOCKET_OUTPUT_STOPPED", some "/s/t.mkv"⟩).1.recording_active =
      false ∧
    (on_record_state_changed ⟨false, false, false, none, [], ["/q/r.mkv"], []⟩
        ⟨false, "OBS_WEBSOCKET_OUTPUT_STOPPED", some "/s/t.mkv"⟩).2.joined = false ∧
    (on_record_state_changed ⟨false, false, false, none, [], ["/q/r.mkv"], []⟩
        ⟨false, "OBS_WEBSOCKET_OUTPUT_STOPPED", some "/s/t.mkv"⟩).2.moves =
      (add_files ["/q/r.mkv"] [] (some "/s/t.mkv")).map (fun p => (p, "Unknown")) ∧
    (∀ p ∈ (["/q/r.mkv"] : List String),
      (p, "Unknown") ∈ (on_record_state_changed
          ⟨false, false, false, none, [], ["/q/r.mkv"], []⟩
          ⟨false, "OBS_WEBSOCKET_OUTPUT_STOPPED", some "/s/t.mkv"⟩).2.moves) :=
  initial_stop_event_runs_stop_path ⟨false, false, false, none, [], ["/q/r.mkv"], []⟩
    ⟨false, "OBS_WEBSOCKET_OUTPUT_STOPPED", some "/s/t.mkv"⟩ rfl rfl rfl rfl
    (by decide) (by decide)

end RecordingMover
